import Mathlib

/-!
Verification model of the ogr2ifc feature-to-IFC conversion engine
(src/ogr2ifc.py, with the legacy variant in src/ogr2ifc/ogr2ifc.py).

Embedding conventions:
* Coordinates and elevations are rationals (exact arithmetic standing in for
  IEEE doubles; the operations the code performs on them — pass-through,
  subtraction, tuple truncation — are exact in both models on the inputs
  considered here).
* OGR geometries are a tagged variant mirroring the geometry kinds the code
  dispatches on via GetGeometryName(); GDAL returns the upper-case names
  "POINT", "MULTIPOINT", "LINESTRING", "MULTILINESTRING", "POLYGON",
  "MULTIPOLYGON".
* Fallible Python evaluation (AttributeError, ValueError, raising
  NotImplementedError, raising a non-exception value) is modelled with
  `Except PyError`.
* The mutable `ifcfile` document of the hierarchy/composition layer is
  modelled as a list of appended entities threaded through a state monad;
  purely geometric resource entities (cartesian points, polylines, profiles,
  extruded solids) are kept as inline values on the shape representations,
  since only their content — not their entity numbering — matters to the
  properties checked here.
-/

/-- A 3D coordinate, as held by a shapely `Point(x, y, z)`. -/
abbrev Point3 : Type := ℚ × ℚ × ℚ

/-- The coordinate tuple of a point, as `Point(...).coords[0]` exposes it. -/
def ptList (p : Point3) : List ℚ := [p.1, p.2.1, p.2.2]

/-- OGR geometry, tagged by the kinds the code dispatches on.
Rings and line strings are ordered vertex sequences; for a polygon, ring
index 0 is the outer ring (`GetGeometryRef(0)`). -/
inductive Geometry where
  | point (p : Point3)
  | multiPoint (member : List Point3)
  | lineString (pts : List Point3)
  | multiLineString (member : List (List Point3))
  | polygon (rings : List (List Point3))
  | multiPolygon (member : List (List (List Point3)))
deriving Repr, DecidableEq

/-- `GetGeometryName()` of an OGR geometry: GDAL returns these upper-case
names (the code additionally applies `.upper()`, a no-op on them). -/
def Geometry.geomName : Geometry → String
  | .point _ => "POINT"
  | .multiPoint _ => "MULTIPOINT"
  | .lineString _ => "LINESTRING"
  | .multiLineString _ => "MULTILINESTRING"
  | .polygon _ => "POLYGON"
  | .multiPolygon _ => "MULTIPOLYGON"

/-- `GetGeometryCount()`: number of sub-geometries (rings of a polygon,
members of a multi-geometry); 0 for points and line strings. -/
def Geometry.getGeometryCount : Geometry → Nat
  | .point _ => 0
  | .multiPoint member => member.length
  | .lineString _ => 0
  | .multiLineString member => member.length
  | .polygon rings => rings.length
  | .multiPolygon member => member.length

/-- The ring list of a polygon; empty for every other kind (on which the
code would find `GetGeometryRef(0)` to be `None`). -/
def Geometry.ringsOf : Geometry → List (List Point3)
  | .polygon rings => rings
  | _ => []

/-- The member polygons of a multipolygon (`GetGeometryRef(i)` for
`i in range(GetGeometryCount())`); empty for every other kind. -/
def Geometry.membersOf : Geometry → List (List (List Point3))
  | .multiPolygon member => member
  | _ => []

/-- The vertex list of a line string (`GetPoint(i)` for
`i in range(GetPointCount())`); a point has one vertex. -/
def Geometry.linePoints : Geometry → List Point3
  | .lineString pts => pts
  | .point p => [p]
  | _ => []

/-- Python error values surfacing from the modelled code. -/
inductive PyError where
  | attributeError (attr : String)
  | valueError (msg : String)
  | typeError (msg : String)
  | notImplementedError
  | exceptionMsg (msg : String)
deriving Repr, DecidableEq

/-- `GetPoint()` (no argument): first vertex of a point or line string.
GDAL's behaviour on container geometries is not exercised by the sources,
so the model surfaces an error there. -/
def Geometry.getPoint : Geometry → Except PyError Point3
  | .point p => .ok p
  | .lineString (p :: _) => .ok p
  | _ => .error (.exceptionMsg "GetPoint")

/-- A GIS attribute value, as `feature.items()` yields it (OGR fields are
booleans, integers, reals or text; a NULL field yields Python `None`). -/
inductive AttrVal where
  | boolV (b : Bool)
  | intV (i : Int)
  | realV (q : ℚ)
  | textV (s : String)
  | nullV
deriving Repr, DecidableEq

/-- A vector feature: id (`GetFID()`), geometry (`GetGeometryRef()`) and
attribute mapping (`items()`). -/
structure Feature where
  fid : Int
  geom : Geometry
  attributes : List (String × AttrVal)
deriving Repr, DecidableEq

/-- `feature.items().get(name)`: `none` both when the key is absent and
when the stored field is NULL (Python `None`), exactly the two cases the
code's `is None` test conflates. -/
def itemsGet (f : Feature) (name : String) : Option AttrVal :=
  match f.attributes.lookup name with
  | some .nullV => none
  | some v => some v
  | none => none

/-- Value of the digit list of a decimal literal. -/
def natOfDigits (l : List Char) : ℚ :=
  l.foldl (fun acc c => acc * 10 + (c.toNat - 48 : ℕ)) 0

/-- Python `float(s)` on a plain decimal string: optional sign, digits,
optional point, digits; anything else raises ValueError. (Exponents,
inf/nan and underscores are not used by the sources and are not modelled.) -/
def parsePyFloat (s : String) : Option ℚ :=
  let cs := s.toList
  let signAndRest : ℚ × List Char :=
    match cs with
    | '-' :: rest => (-1, rest)
    | '+' :: rest => (1, rest)
    | _ => (1, cs)
  let sign := signAndRest.1
  let body := signAndRest.2
  let intDigits := body.takeWhile Char.isDigit
  let rest := body.dropWhile Char.isDigit
  match rest with
  | [] =>
    if intDigits.isEmpty then none
    else some (sign * natOfDigits intDigits)
  | '.' :: frac =>
    if frac.all Char.isDigit && !(intDigits.isEmpty && frac.isEmpty) then
      some (sign * (natOfDigits intDigits + natOfDigits frac / (10 : ℚ) ^ frac.length))
    else none
  | _ => none

/-- Python `float(v)` on an attribute value or elevation literal. -/
def pyFloat : AttrVal → Except PyError ℚ
  | .boolV b => .ok (if b then 1 else 0)
  | .intV i => .ok (i : ℚ)
  | .realV q => .ok q
  | .textV s =>
    match parsePyFloat s with
    | some q => .ok q
    | none => .error (.valueError "could not convert string to float")
  | .nullV => .error (.typeError "float() argument must not be None")

/-- A `top_elevation` / `bottom_elevation` parameter: either a number or an
attribute-name string (the code distinguishes them with `isinstance(_, str)`). -/
inductive ElevSpec where
  | num (x : ℚ)
  | attr (name : String)

/-- The coordinate-transformer slot of `Ogr2Ifc`.  When the caller supplies
no transformer, `__init__` stores the module-level factory `transformer`
itself (`coord_transformer if coord_transformer else transformer` — note the
missing call parentheses), not a point-to-point function. -/
inductive CoordTransformer where
  | factoryDefault
  | fn (f : Point3 → Point3)

/-- Calling the stored transformer on a shapely point and reading the
resulting geometry's data (`.coords` / `.z`).  Calling the bare factory
returns its inner closure, and reading `.coords` / `.z` off a function
object raises AttributeError. -/
def applyCT : CoordTransformer → Point3 → Except PyError Point3
  | .factoryDefault, _ => .error (.attributeError "coords")
  | .fn f, p => .ok (f p)

/-- The per-run state of an `Ogr2Ifc` object that the shape builders read:
representation flags, elevation specs, and the coordinate-transformer slot.
(`min_elevation` / `max_elevation` are *not* fields: unlike the legacy
module, this class never assigns them, so reading them raises
AttributeError — see `Ogr2Shape.extrusion_bounds`.) -/
structure Ogr2Ifc where
  CoG : Bool
  Box : Bool
  Axis : Bool
  FootPrint : Bool
  Surface : Bool
  Body : Bool
  top_elevation : ElevSpec
  bottom_elevation : ElevSpec
  coord_transformer : CoordTransformer

/-- `Ogr2Ifc.__init__`: representation flags are hard-coded
(CoG/Box/FootPrint off, Axis/Surface/Body on); `None` elevations fall back
to the literals 10000.0 and 0.0; a missing coordinate transformer leaves
the bare factory in the slot. -/
def mkOgr2Ifc (top bottom : Option ElevSpec) (ct : Option CoordTransformer) : Ogr2Ifc :=
  { CoG := false
    Box := false
    Axis := true
    FootPrint := false
    Surface := true
    Body := true
    top_elevation := top.getD (.num 10000)
    bottom_elevation := bottom.getD (.num 0)
    coord_transformer := ct.getD .factoryDefault }

/-- The `Ogr2Ifc` object built with all-default constructor arguments. -/
def defaultOgr2Ifc : Ogr2Ifc := mkOgr2Ifc none none none

/-- ASCII upper-casing of one character, as Python `str.upper()` performs
it on the ASCII type names the code passes around. -/
def upperChar (c : Char) : Char :=
  if 'a' ≤ c ∧ c ≤ 'z' then Char.ofNat (c.toNat - 32) else c

/-- Python `str.upper()` on an ASCII string. -/
def pyUpper (s : String) : String := ⟨s.data.map upperChar⟩

namespace Ogr2Shape

/-- `Ogr2Shape.geom_type(*types)`: is the feature's geometry name among the
upper-cased type names? -/
def geom_type (f : Feature) (types : List String) : Bool :=
  (types.map pyUpper).contains f.geom.geomName

/-- `Ogr2Shape.extrusion_bounds`: resolve `(top, bottom)`.  A string spec is
looked up on the feature; when absent or NULL the code logs a diagnostic and
then reads `self.ogr2ifc.min_elevation` (resp. `max_elevation`) — attributes
this class never sets, so the fallback raises AttributeError.  Both values
are then coerced with `float(...)`, top first. -/
def extrusion_bounds (o : Ogr2Ifc) (f : Feature) : Except PyError (ℚ × ℚ) := do
  let bottomRaw : AttrVal ←
    match o.bottom_elevation with
    | .attr name =>
      match itemsGet f name with
      | some v => pure v
      | none => throw (PyError.attributeError "min_elevation")
    | .num x => pure (.realV x)
  let topRaw : AttrVal ←
    match o.top_elevation with
    | .attr name =>
      match itemsGet f name with
      | some v => pure v
      | none => throw (PyError.attributeError "max_elevation")
    | .num x => pure (.realV x)
  let top ← pyFloat topRaw
  let bottom ← pyFloat bottomRaw
  return (top, bottom)

end Ogr2Shape

/-- A committed `IfcCartesianPoint`: the coordinate tuple, truncated by the
caller's `dimensions` argument. -/
abbrev IfcPoint : Type := List ℚ

/-- A committed `IfcPolyLine`: its point list. -/
abbrev Polyline : Type := List IfcPoint

/-- A committed `IfcFaceSurface` as `create_ifcface` builds it: a single
`IfcFaceBound` holding one `IfcPolyLoop` of points. -/
structure IfcFace where
  loop : List IfcPoint
deriving Repr, DecidableEq

/-- The profile of an extruded solid: `IfcArbitraryClosedProfileDef`
(simple) or `IfcArbitraryProfileDefWithVoids` (outer curve plus inner
curves). -/
inductive Profile where
  | closed (outer : Polyline)
  | withVoids (outer : Polyline) (inners : List Polyline)
deriving Repr, DecidableEq

/-- The single outer boundary curve of a profile. -/
def Profile.outerBoundary : Profile → Polyline
  | .closed outer => outer
  | .withVoids outer _ => outer

/-- The void boundary curves of a profile (a simple closed profile has
none). -/
def Profile.voidBoundaries : Profile → List Polyline
  | .closed _ => []
  | .withVoids _ inners => inners

/-- A committed `IfcExtrudedAreaSolid`: profile, placement location
(axis and reference direction are the constant Z and X), extrusion
direction and extrusion depth. -/
structure ExtrudedAreaSolid where
  profile : Profile
  position : Point3
  direction : Point3
  depth : ℚ
deriving Repr, DecidableEq

/-- The items of an `IfcShapeRepresentation`, by builder. -/
inductive RepItems where
  | curves (cs : List Polyline)
  | faces (fs : List IfcFace)
  | solids (ss : List ExtrudedAreaSolid)
deriving Repr, DecidableEq

/-- A committed `IfcShapeRepresentation`: representation identifier
("Axis" / "Surface" / "Body"), representation type, and items. -/
structure ShapeRep where
  identifier : String
  repType : String
  items : RepItems
deriving Repr, DecidableEq

/-- The module-level constant `Z = 0., 0., 1.`. -/
def Zvec : Point3 := (0, 0, 1)

/-- The module-level constant `X = 1., 0., 0.`. -/
def Xvec : Point3 := (1, 0, 0)

/-- Left-to-right effectful map, as a Python list comprehension evaluates:
the first failure aborts the whole list. -/
def mapExcept (f : α → Except PyError β) : List α → Except PyError (List β)
  | [] => .ok []
  | a :: l => do
    let b ← f a
    let bs ← mapExcept f l
    return b :: bs

namespace Ogr2Shape

/-- `Ogr2Shape.create_ifcpoint`: pass the point through the stored
coordinate transformer, then keep the first `dimensions` coordinates. -/
def create_ifcpoint (o : Ogr2Ifc) (p : Point3) (dimensions : Nat) : Except PyError IfcPoint := do
  let q ← applyCT o.coord_transformer p
  return (ptList q).take dimensions

/-- `Ogr2Shape.create_ifcpoints`. -/
def create_ifcpoints (o : Ogr2Ifc) (points : List Point3) (dimensions : Nat) :
    Except PyError (List IfcPoint) :=
  mapExcept (fun p => create_ifcpoint o p dimensions) points

/-- `Ogr2Shape.create_ifcpolyline`. -/
def create_ifcpolyline (o : Ogr2Ifc) (point_list : List Point3) (dimensions : Nat) :
    Except PyError Polyline :=
  create_ifcpoints o point_list dimensions

/-- `Ogr2Shape.create_ifcface`. -/
def create_ifcface (o : Ogr2Ifc) (points_list : List Point3) (dimensions : Nat) :
    Except PyError IfcFace := do
  let points ← create_ifcpoints o points_list dimensions
  return { loop := points }

/-- `Ogr2Shape.create_ifcfaces`. -/
def create_ifcfaces (o : Ogr2Ifc) (points_lists : List (List Point3)) (dimensions : Nat) :
    Except PyError (List IfcFace) :=
  mapExcept (fun pl => create_ifcface o pl dimensions) points_lists

/-- `Ogr2Shape.cog`: declared but not implemented. -/
def cog (_o : Ogr2Ifc) (_f : Feature) : Except PyError (List ShapeRep) :=
  .error .notImplementedError

/-- `Ogr2Shape.box`: declared but not implemented. -/
def box (_o : Ogr2Ifc) (_f : Feature) : Except PyError (List ShapeRep) :=
  .error .notImplementedError

/-- `Ogr2Shape.footprint`: declared but not implemented. -/
def footprint (_o : Ogr2Ifc) (_f : Feature) : Except PyError (List ShapeRep) :=
  .error .notImplementedError

/-- `Ogr2Shape.axis`: for point geometry, one vertical polyline from
`(x, y, bottom)` to `(x, y, top)`.  A multipoint with more than one member
hits `raise('Multi points not supported')`, which in Python 3 is a
TypeError (raising a non-exception value). -/
def axis (o : Ogr2Ifc) (f : Feature) : Except PyError (List ShapeRep) :=
  if !(geom_type f ["Point", "Multipoint"]) then .ok []
  else do
    let tb ← extrusion_bounds o f
    if f.geom.getGeometryCount > 1 then
      throw (PyError.typeError "exceptions must derive from BaseException")
    else do
      let point ← f.geom.getPoint
      let pl ← create_ifcpolyline o [(point.1, point.2.1, tb.2), (point.1, point.2.1, tb.1)] 3
      return [{ identifier := "Axis", repType := "Curve2D", items := .curves [pl] }]

/-- The quadrilateral face point list built for one line segment: corners
`(p0, bottom), (p1, bottom), (p1, top), (p0, top)`, closed by repeating the
first corner (the code keeps each vertex's x and y and replaces z). -/
def segQuad (p0 p1 : Point3) (bottom top : ℚ) : List Point3 :=
  [(p0.1, p0.2.1, bottom), (p1.1, p1.2.1, bottom),
   (p1.1, p1.2.1, top), (p0.1, p0.2.1, top), (p0.1, p0.2.1, bottom)]

/-- The `points_lists` loop of `Ogr2Shape.surface`: one quadrilateral per
consecutive vertex pair `(segment_points[i-1], segment_points[i])`. -/
def quadLists (bottom top : ℚ) : List Point3 → List (List Point3)
  | p0 :: p1 :: rest => segQuad p0 p1 bottom top :: quadLists bottom top (p1 :: rest)
  | _ => []

/-- `Ogr2Shape.surface`: line-string geometry only; multilinestring raises
NotImplementedError; otherwise one "Surface" representation holding one
vertical panel face per segment. -/
def surface (o : Ogr2Ifc) (f : Feature) : Except PyError (List ShapeRep) :=
  if !(geom_type f ["Linestring", "Multilinestring"]) then .ok []
  else do
    let tb ← extrusion_bounds o f
    if geom_type f ["Multilinestring"] then throw PyError.notImplementedError
    else do
      let segment_points := f.geom.linePoints
      let points_lists := quadLists tb.2 tb.1 segment_points
      let fcs ← create_ifcfaces o points_lists 3
      return [{ identifier := "Surface", repType := "Surface", items := .faces fcs }]

/-- `Ogr2Shape.create_ifcextrudedareasolid`: profile from the ring list of
one polygon — ring 0 is the outer curve; with further rings the profile is
an `IfcArbitraryProfileDefWithVoids` whose inner curves are rings 1.. —
extruded along `extrude_dir` by `extrusion`.  (On an empty ring list the
code would call methods of `None`.) -/
def create_ifcextrudedareasolid (o : Ogr2Ifc) (rings : List (List Point3))
    (place : Point3) (extrude_dir : Point3) (extrusion : ℚ) :
    Except PyError ExtrudedAreaSolid :=
  match rings with
  | [] => .error (.attributeError "GetPointCount")
  | outer_ring :: inner_rings => do
    let outer_polyline ← create_ifcpolyline o outer_ring 2
    let profile ←
      if inner_rings.isEmpty then
        pure (Profile.closed outer_polyline)
      else do
        let inner_polylines ← mapExcept (fun r => create_ifcpolyline o r 2) inner_rings
        pure (Profile.withVoids outer_polyline inner_polylines)
    return { profile := profile, position := place, direction := extrude_dir, depth := extrusion }

/-- `Ogr2Shape.create_ifcextrudedareasolids`: one solid per member polygon
of a multipolygon, else a single solid from the geometry itself. -/
def create_ifcextrudedareasolids (o : Ogr2Ifc) (f : Feature)
    (place : Point3) (extrude_dir : Point3) (extrusion : ℚ) :
    Except PyError (List ExtrudedAreaSolid) :=
  if geom_type f ["Multipolygon"] then
    mapExcept (fun rings => create_ifcextrudedareasolid o rings place extrude_dir extrusion)
      f.geom.membersOf
  else do
    let s ← create_ifcextrudedareasolid o f.geom.ringsOf place extrude_dir extrusion
    return [s]

/-- `Ogr2Shape.body`: polygon geometry only (anything else is skipped with
no representation); extrusion distance is `top - bottom`; the extrusion
placement sits at `(0, 0, z)` where `z` is the transformed bottom
elevation; extrusion direction is the global Z axis. -/
def body (o : Ogr2Ifc) (f : Feature) : Except PyError (List ShapeRep) :=
  if !(geom_type f ["Polygon", "Multipolygon"]) then .ok []
  else do
    let tb ← extrusion_bounds o f
    let extrusion_distance := tb.1 - tb.2
    let transformed ← applyCT o.coord_transformer (0, 0, tb.2)
    let extrusion_placement : Point3 := (0, 0, transformed.2.2)
    let solids ← create_ifcextrudedareasolids o f extrusion_placement Zvec extrusion_distance
    return [{ identifier := "Body", repType := "SweptSolid", items := .solids solids }]

/-- `Ogr2Shape.representations`: concatenate the builders' outputs in the
fixed source order CoG, Box, Axis, FootPrint, Surface, Body, each gated by
its flag. -/
def representations (o : Ogr2Ifc) (f : Feature) : Except PyError (List ShapeRep) :=
  (if o.CoG then cog o f else .ok []) >>= fun s1 =>
  (if o.Box then box o f else .ok []) >>= fun s2 =>
  (if o.Axis then axis o f else .ok []) >>= fun s3 =>
  (if o.FootPrint then footprint o f else .ok []) >>= fun s4 =>
  (if o.Surface then surface o f else .ok []) >>= fun s5 =>
  (if o.Body then body o f else .ok []) >>= fun s6 =>
  .ok (s1 ++ s2 ++ s3 ++ s4 ++ s5 ++ s6)

end Ogr2Shape

/-- A value produced by the external OGR methods `Area()` / `Length()`,
kept symbolic: the claims checked here only inspect which measure is taken,
never its numeric value. -/
inductive OgrMeasure where
  | areaOf (g : Geometry)
  | lengthOf (g : Geometry)
deriving Repr, DecidableEq

/-- A committed `IfcQuantityArea` (the code builds this entity for both the
Area and the "Length" branch). -/
structure IfcQuantityArea where
  name : String
  description : String
  value : OgrMeasure
deriving Repr, DecidableEq

/-- `Ogr2Ifc.feature_quantities`: an Area quantity for POLYGON /
MULTIPOLYGON; a "Length" quantity for geometry names 'LINE' / 'MULTILINE'
(names GDAL never produces — line strings are named LINESTRING /
MULTILINESTRING); implicitly `None` otherwise. -/
def Ogr2Ifc.feature_quantities (f : Feature) : Option (List IfcQuantityArea) :=
  if ["POLYGON", "MULTIPOLYGON"].contains f.geom.geomName then
    some [{ name := "Area", description := "Area of the GIS feature", value := .areaOf f.geom }]
  else if ["LINE", "MULTILINE"].contains f.geom.geomName then
    some [{ name := "Length", description := "Length of the GIS feature", value := .lengthOf f.geom }]
  else
    none

/-- A typed IFC value as `add_property_set` creates it (`isinstance` chain:
bool, then int, then float, else text via `str(v)` — so a NULL field
becomes the text "None"). -/
inductive IfcValue where
  | boolean (b : Bool)
  | integer (i : Int)
  | real (q : ℚ)
  | text (s : String)
deriving Repr, DecidableEq

/-- The `isinstance` dispatch of `Ogr2Ifc.add_property_set`. -/
def ifcValueOf : AttrVal → IfcValue
  | .boolV b => .boolean b
  | .intV i => .integer i
  | .realV q => .real q
  | .textV s => .text s
  | .nullV => .text "None"

/-- A document-level entity appended to the `ifcfile`.  Entity references
are indices into the document list.  `create_ifclocalplacement` is
collapsed to a single entity holding its optional relative placement (its
constant inner point/direction resources carry no information), and the
three instances the template file provides (owner history, project,
geometric context) appear as `templateEnt`s. -/
inductive Entity where
  | templateEnt (kind : String)
  | localPlacement (relative : Option Nat)
  | siteEnt (name : String) (placement : Nat)
  | buildingEnt (name : String) (placement : Nat)
  | buildingStoreyEnt (name : String) (placement : Nat)
  | spaceEnt (description : String) (name : String) (placement : Nat)
  | relAggregates (relName : String) (relating : Nat) (related : List Nat)
  | relContained (relName : String) (related : List Nat) (relating : Nat)
  | productShape (reps : List ShapeRep)
  | wall (label : String) (description : String) (placement : Nat) (shape : Nat)
  | propertySingleValue (pname : String) (val : IfcValue)
  | propertySet (psName : String) (props : List Nat)
  | relDefinesByProperties (related : List Nat) (definition : Nat)
  | elementQuantity (qname : String) (quantities : List IfcQuantityArea)
deriving Repr, DecidableEq

/-- The mutable state of an `Ogr2Ifc` conversion run: the document plus the
object attributes the hierarchy code assigns (`self.site_placement`,
`self.building_placement`, `self.building`, and the per-layer
`self.storey_placement` / `self.building_storey`, unset until
`create_storey` first runs). -/
structure DocState where
  doc : List Entity
  site_placement : Nat
  building_placement : Nat
  building : Nat
  storey_placement : Option Nat
  building_storey : Option Nat
deriving Repr, DecidableEq

/-- The conversion monad: Python exceptions over the mutable document
(mutations made before an exception persist — the state is returned with
the error).  Implemented as a plain state-passing function with structural
bind so that closed runs evaluate by reduction. -/
def ConvM (α : Type) : Type := DocState → Except PyError α × DocState

/-- Monadic return. -/
def convPure (a : α) : ConvM α := fun s => (.ok a, s)

/-- Monadic bind: an error short-circuits but keeps the state reached. -/
def convBind (x : ConvM α) (f : α → ConvM β) : ConvM β := fun s =>
  match x s with
  | (.ok a, s2) => f a s2
  | (.error e, s2) => (.error e, s2)

instance : Monad ConvM where
  pure := convPure
  bind := convBind

/-- Raise a Python exception. -/
def convThrow (e : PyError) : ConvM α := fun s => (.error e, s)

/-- Read the current state (the `self` attributes and the document). -/
def getState : ConvM DocState := fun s => (.ok s, s)

/-- Update the state. -/
def modifyState (f : DocState → DocState) : ConvM Unit := fun s => (.ok (), f s)

/-- Append one entity to the document, returning its reference. -/
def createEntity (e : Entity) : ConvM Nat := do
  let st ← getState
  modifyState fun st2 => { st2 with doc := st2.doc ++ [e] }
  return st.doc.length

/-- Lift a pure `Except` computation (the shape-builder layer) into the
conversion monad. -/
def liftE : Except PyError α → ConvM α
  | .ok a => convPure a
  | .error e => convThrow e

/-- `create_ifclocalplacement` at the document level (identity offset,
optional relative placement). -/
def create_ifclocalplacementDoc (relative_to : Option Nat) : ConvM Nat :=
  createEntity (.localPlacement relative_to)

namespace Ogr2IfcRun

/-- `Ogr2Ifc.create_storey`: a placement relative to the building, the
storey itself (assigned to `self.building_storey`), and a "Building
Container" aggregation under the building; the method returns the
*aggregation relation*, not the storey. -/
def create_storey (name : String) : ConvM Nat := do
  let sp ← create_ifclocalplacementDoc (some (← getState).building_placement)
  modifyState fun st => { st with storey_placement := some sp }
  let bs ← createEntity (.buildingStoreyEnt name sp)
  modifyState fun st => { st with building_storey := some bs }
  let storey ← createEntity (.relAggregates "Building Container" (← getState).building [bs])
  return storey

/-- The property-value creation loop of `Ogr2Ifc.add_property_set`, in
attribute order. -/
def createPropertyValues : List (String × AttrVal) → ConvM (List Nat)
  | [] => convPure []
  | kv :: rest => do
    let r ← createEntity (.propertySingleValue kv.1 (ifcValueOf kv.2))
    let rs ← createPropertyValues rest
    return (r :: rs)

/-- `Ogr2Ifc.add_property_set`: one property per attribute, gathered into a
property set named after the layer and attached to the element. -/
def add_property_set (layerName : String) (f : Feature) (ifc_element : Nat) : ConvM Unit := do
  let property_values ← createPropertyValues f.attributes
  let property_set ← createEntity (.propertySet ("ePset_GIS2BIM_" ++ layerName) property_values)
  let _ ← createEntity (.relDefinesByProperties [ifc_element] property_set)
  return ()

/-- `Ogr2Ifc.add_feature`: placement, shape representations, the wall
element, a "Feature space" aggregation under the `space` argument, the
property set, the optional quantity set, and the containment relation to
`self.building_storey`. -/
def add_feature (o : Ogr2Ifc) (layerName : String) (space : Nat) (f : Feature) : ConvM Unit := do
  let feature_placement ← create_ifclocalplacementDoc none
  let reps ← liftE (Ogr2Shape.representations o f)
  let product_shape ← createEntity (.productShape reps)
  let ifc_element ← createEntity
    (.wall ("GIS2BIM Layer " ++ layerName ++ ", Feature ID " ++ toString f.fid)
      "A GIS2BIM ifc_element" feature_placement product_shape)
  let _ ← createEntity (.relAggregates "Feature space" space [ifc_element])
  add_property_set layerName f ifc_element
  match Ogr2Ifc.feature_quantities f with
  | some feature_quantities => do
    let element_quantity ← createEntity (.elementQuantity "BaseQuantities" feature_quantities)
    let _ ← createEntity (.relDefinesByProperties [ifc_element] element_quantity)
  | none => convPure ()
  match (← getState).building_storey with
  | some bs =>
    let _ ← createEntity (.relContained "Building Storey Container" [ifc_element] bs)
    return ()
  | none => convThrow (.attributeError "building_storey")

/-- The feature loop of `Ogr2Ifc.add_layer_objects`. -/
def addFeaturesLoop (o : Ogr2Ifc) (layerName : String) (space : Nat) :
    List Feature → ConvM Unit
  | [] => convPure ()
  | f :: rest => do
    add_feature o layerName space f
    addFeaturesLoop o layerName space rest

/-- `Ogr2Ifc.add_layer_objects`: creates the layer's `IfcSpace`, then
immediately rebinds the `space` variable to `create_storey`'s return value
(the "Building Container" aggregation relation), and adds each feature with
that rebound value. -/
def add_layer_objects (o : Ogr2Ifc) (layerName : String) (features : List Feature) :
    ConvM Unit := do
  let _space ← createEntity (.spaceEnt "GIS2 Bim Layer space" layerName (← getState).site_placement)
  let space ← create_storey layerName
  addFeaturesLoop o layerName space features

end Ogr2IfcRun

/-- The state after `Ogr2Ifc.create_ifc()`: the template's owner history,
project and context, then site placement, site, building placement,
building, and the site / project aggregation relations. -/
def initState : DocState :=
  { doc :=
      [ .templateEnt "IfcOwnerHistory"                     -- 0
      , .templateEnt "IfcProject"                          -- 1
      , .templateEnt "IfcGeometricRepresentationContext"   -- 2
      , .localPlacement none                               -- 3  site_placement
      , .siteEnt "Site" 3                                  -- 4  site
      , .localPlacement (some 3)                           -- 5  building_placement
      , .buildingEnt "GIS2BIM" 5                           -- 6  building
      , .relAggregates "Site Container" 4 [6]              -- 7
      , .relAggregates "Project Container" 1 [4]           -- 8
      ]
    site_placement := 3
    building_placement := 5
    building := 6
    storey_placement := none
    building_storey := none }

theorem pyBind_ok (a : α) (g : α → Except PyError β) : (Except.ok a >>= g) = g a := rfl

theorem pyBind_error (e : PyError) (g : α → Except PyError β) :
    ((Except.error e : Except PyError α) >>= g) = Except.error e := rfl

theorem pyMap_ok (g : α → β) (a : α) :
    (g <$> (Except.ok a : Except PyError α)) = Except.ok (g a) := rfl

theorem pyMap_error (g : α → β) (e : PyError) :
    (g <$> (Except.error e : Except PyError α)) = Except.error e := rfl

theorem pyPure (a : α) : (pure a : Except PyError α) = Except.ok a := rfl

/-- An effect-free map succeeds elementwise. -/
theorem mapExcept_ok_of_fn {α β : Type} {f : α → Except PyError β} {g : α → β}
    (hfg : ∀ a, f a = .ok (g a)) (l : List α) :
    mapExcept f l = .ok (l.map g) := by
  induction l with
  | nil => rfl
  | cons a t ih => simp [mapExcept, hfg, ih, pyBind_ok, pyMap_ok]

/-- The pass of one ring through `create_ifcpolyline` with a supplied
transformer `tr` and `dimensions = d`. -/
def polyOf (tr : Point3 → Point3) (d : Nat) (ring : List Point3) : Polyline :=
  ring.map fun p => (ptList (tr p)).take d

theorem create_ifcpoint_fn (o : Ogr2Ifc) (tr : Point3 → Point3)
    (htr : o.coord_transformer = .fn tr) (p : Point3) (d : Nat) :
    Ogr2Shape.create_ifcpoint o p d = .ok ((ptList (tr p)).take d) := by
  simp [Ogr2Shape.create_ifcpoint, htr, applyCT, pyBind_ok]

theorem create_ifcpolyline_fn (o : Ogr2Ifc) (tr : Point3 → Point3)
    (htr : o.coord_transformer = .fn tr) (pts : List Point3) (d : Nat) :
    Ogr2Shape.create_ifcpolyline o pts d = .ok (polyOf tr d pts) := by
  simp only [Ogr2Shape.create_ifcpolyline, Ogr2Shape.create_ifcpoints, polyOf]
  exact mapExcept_ok_of_fn (create_ifcpoint_fn o tr htr · d) pts

theorem create_solid_fn (o : Ogr2Ifc) (tr : Point3 → Point3)
    (htr : o.coord_transformer = .fn tr) (outer : List Point3)
    (inner : List (List Point3)) (place dir : Point3) (ext : ℚ) :
    Ogr2Shape.create_ifcextrudedareasolid o (outer :: inner) place dir ext =
      .ok { profile :=
              if inner.isEmpty then Profile.closed (polyOf tr 2 outer)
              else Profile.withVoids (polyOf tr 2 outer) (inner.map (polyOf tr 2)),
            position := place, direction := dir, depth := ext } := by
  have hmap : mapExcept (fun r => Except.ok (polyOf tr 2 r)) inner =
      .ok (inner.map (polyOf tr 2)) :=
    mapExcept_ok_of_fn (fun _ => rfl) inner
  cases inner with
  | nil =>
    simp [Ogr2Shape.create_ifcextrudedareasolid, create_ifcpolyline_fn o tr htr,
      pyBind_ok, pyMap_ok, pyPure]
  | cons r rest =>
    simp [Ogr2Shape.create_ifcextrudedareasolid, create_ifcpolyline_fn o tr htr, hmap,
      pyBind_ok, pyMap_ok, pyPure]

theorem geom_type_polygon (f : Feature) (rs : List (List Point3))
    (hg : f.geom = .polygon rs) :
    Ogr2Shape.geom_type f ["Polygon", "Multipolygon"] = true := by
  unfold Ogr2Shape.geom_type
  rw [hg]
  rfl

theorem geom_type_not_multipolygon_of_polygon (f : Feature) (rs : List (List Point3))
    (hg : f.geom = .polygon rs) :
    Ogr2Shape.geom_type f ["Multipolygon"] = false := by
  unfold Ogr2Shape.geom_type
  rw [hg]
  rfl

/-- C1 statement (development). -/
theorem claim_C1_polygon_body_profile (o : Ogr2Ifc) (tr : Point3 → Point3) (f : Feature)
    (outer : List Point3) (inner : List (List Point3)) (top bottom : ℚ)
    (htr : o.coord_transformer = .fn tr)
    (hg : f.geom = .polygon (outer :: inner))
    (hb : Ogr2Shape.extrusion_bounds o f = .ok (top, bottom)) :
    ∃ sol : ExtrudedAreaSolid,
      Ogr2Shape.body o f =
        .ok [{ identifier := "Body", repType := "SweptSolid", items := .solids [sol] }] ∧
      sol.profile.outerBoundary = outer.map (fun p => (ptList (tr p)).take 2) ∧
      sol.profile.voidBoundaries = inner.map (fun r => r.map (fun p => (ptList (tr p)).take 2)) ∧
      sol.depth = top - bottom := by
  have hgt := geom_type_polygon f (outer :: inner) hg
  have hsolids :
      Ogr2Shape.create_ifcextrudedareasolids o f (0, 0, tr (0, 0, bottom) |>.2.2) Zvec
        (top - bottom) =
      .ok [{ profile :=
               if inner.isEmpty then Profile.closed (polyOf tr 2 outer)
               else Profile.withVoids (polyOf tr 2 outer) (inner.map (polyOf tr 2)),
             position := (0, 0, tr (0, 0, bottom) |>.2.2), direction := Zvec,
             depth := top - bottom }] := by
    unfold Ogr2Shape.create_ifcextrudedareasolids
    rw [geom_type_not_multipolygon_of_polygon f (outer :: inner) hg]
    simp only [Bool.false_eq_true, if_false, hg, Geometry.ringsOf,
      create_solid_fn o tr htr, pyBind_ok, pyMap_ok, pyPure]
  refine ⟨{ profile :=
              if inner.isEmpty then Profile.closed (polyOf tr 2 outer)
              else Profile.withVoids (polyOf tr 2 outer) (inner.map (polyOf tr 2)),
            position := (0, 0, tr (0, 0, bottom) |>.2.2), direction := Zvec,
            depth := top - bottom }, ?_, ?_, ?_, rfl⟩
  · unfold Ogr2Shape.body
    rw [hgt]
    simp only [Bool.not_true, Bool.false_eq_true, if_false, hb, pyBind_ok, htr, applyCT,
      hsolids, pyMap_ok, pyPure]
  · cases inner with
    | nil => simp [Profile.outerBoundary, polyOf]
    | cons a l => simp [Profile.outerBoundary, polyOf]
  · cases inner with
    | nil => simp [Profile.voidBoundaries]
    | cons a l => simp [Profile.voidBoundaries, polyOf]

/-- Concrete objects used by the closed witness and evaluation theorems:
an `Ogr2Ifc` with supplied identity transformer and default elevations. -/
def idTransformerOgr2Ifc : Ogr2Ifc := mkOgr2Ifc none none (some (.fn id))

/-- A square Polygon feature (outer ring only). -/
def squareFeature : Feature :=
  { fid := 1
    geom := .polygon [[(0, 0, 0), (10, 0, 0), (10, 10, 0), (0, 10, 0), (0, 0, 0)]]
    attributes := [] }

/-- A Polygon feature with one hole. -/
def holedFeature : Feature :=
  { fid := 2
    geom := .polygon [[(0, 0, 0), (10, 0, 0), (10, 10, 0), (0, 10, 0), (0, 0, 0)],
                      [(2, 2, 0), (4, 2, 0), (4, 4, 0), (2, 4, 0), (2, 2, 0)]]
    attributes := [] }

/-- A two-member MultiPolygon feature. -/
def twoPartFeature : Feature :=
  { fid := 3
    geom := .multiPolygon
      [[[(0, 0, 0), (1, 0, 0), (1, 1, 0), (0, 1, 0), (0, 0, 0)]],
       [[(5, 5, 0), (6, 5, 0), (6, 6, 0), (5, 6, 0), (5, 5, 0)]]]
    attributes := [] }

/-- A three-vertex LineString feature. -/
def threeVertexLine : Feature :=
  { fid := 4
    geom := .lineString [(0, 0, 0), (3, 4, 0), (6, 4, 0)]
    attributes := [] }

/-- Witness for C1: the holed square, default numeric bounds, identity
transformer. -/
theorem claim_C1_witness :
    ∃ sol : ExtrudedAreaSolid,
      Ogr2Shape.body idTransformerOgr2Ifc holedFeature =
        .ok [{ identifier := "Body", repType := "SweptSolid", items := .solids [sol] }] ∧
      sol.profile.outerBoundary =
        [(0, 0, 0), (10, 0, 0), (10, 10, 0), (0, 10, 0), (0, 0, 0)].map
          (fun p => (ptList (id p)).take 2) ∧
      sol.profile.voidBoundaries =
        [[(2, 2, 0), (4, 2, 0), (4, 4, 0), (2, 4, 0), (2, 2, 0)]].map
          (fun r => r.map (fun p => (ptList (id p)).take 2)) ∧
      sol.depth = 10000 - 0 :=
  claim_C1_polygon_body_profile idTransformerOgr2Ifc id holedFeature
    [(0, 0, 0), (10, 0, 0), (10, 10, 0), (0, 10, 0), (0, 0, 0)]
    [[(2, 2, 0), (4, 2, 0), (4, 4, 0), (2, 4, 0), (2, 2, 0)]]
    10000 0 rfl rfl rfl

/-- Index-wise success decomposition of an effectful map. -/
theorem mapExcept_ok_spec {α β : Type} {f : α → Except PyError β} {l : List α}
    {res : List β} (h : mapExcept f l = .ok res) :
    res.length = l.length ∧
    ∀ i (h1 : i < l.length) (h2 : i < res.length),
      f (l.get ⟨i, h1⟩) = .ok (res.get ⟨i, h2⟩) := by
  induction l generalizing res with
  | nil =>
    simp only [mapExcept] at h
    cases h
    exact ⟨rfl, fun i h1 _ => absurd h1 (Nat.not_lt_zero i)⟩
  | cons a t ih =>
    simp only [mapExcept] at h
    cases hfa : f a with
    | error e => rw [hfa] at h; simp [pyBind_error] at h
    | ok b =>
      rw [hfa] at h
      simp only [pyBind_ok] at h
      cases hft : mapExcept f t with
      | error e => rw [hft] at h; simp [pyBind_error, pyMap_error] at h
      | ok bs =>
        rw [hft] at h
        simp only [pyBind_ok, pyMap_ok, pyPure] at h
        cases h
        obtain ⟨hlen, hidx⟩ := ih hft
        refine ⟨by simpa using hlen, ?_⟩
        intro i h1 h2
        cases i with
        | zero => simpa using hfa
        | succ j =>
          exact hidx j (Nat.lt_of_succ_lt_succ h1) (Nat.lt_of_succ_lt_succ h2)

/-- A map over elements that all succeed succeeds. -/
theorem mapExcept_exists_ok {α β : Type} {f : α → Except PyError β} {l : List α}
    (h : ∀ a ∈ l, ∃ b, f a = .ok b) : ∃ res, mapExcept f l = .ok res := by
  induction l with
  | nil => exact ⟨[], rfl⟩
  | cons a t ih =>
    obtain ⟨b, hb⟩ := h a (List.mem_cons_self a t)
    obtain ⟨bs, hbs⟩ := ih (fun x hx => h x (List.mem_cons_of_mem a hx))
    exact ⟨b :: bs, by simp [mapExcept, hb, hbs, pyBind_ok, pyMap_ok, pyPure]⟩

theorem geom_type_multipolygon (f : Feature) (ps : List (List (List Point3)))
    (hg : f.geom = .multiPolygon ps) :
    Ogr2Shape.geom_type f ["Polygon", "Multipolygon"] = true := by
  unfold Ogr2Shape.geom_type
  rw [hg]
  rfl

theorem geom_type_multipolygon_single (f : Feature) (ps : List (List (List Point3)))
    (hg : f.geom = .multiPolygon ps) :
    Ogr2Shape.geom_type f ["Multipolygon"] = true := by
  unfold Ogr2Shape.geom_type
  rw [hg]
  rfl

/-- C2: a MultiPolygon feature with K member polygons (each with at least
one ring) yields exactly one Body representation holding exactly K
extruded solids, the i-th solid being the one `create_ifcextrudedareasolid`
builds from the i-th member alone — members are never merged. -/
theorem claim_C2_multipolygon_solids (o : Ogr2Ifc) (tr : Point3 → Point3) (f : Feature)
    (polys : List (List (List Point3))) (top bottom : ℚ)
    (htr : o.coord_transformer = .fn tr)
    (hg : f.geom = .multiPolygon polys)
    (hb : Ogr2Shape.extrusion_bounds o f = .ok (top, bottom))
    (hne : ∀ rings ∈ polys, rings ≠ []) :
    ∃ sols : List ExtrudedAreaSolid,
      Ogr2Shape.body o f =
        .ok [{ identifier := "Body", repType := "SweptSolid", items := .solids sols }] ∧
      sols.length = polys.length ∧
      ∀ i (h1 : i < polys.length) (h2 : i < sols.length),
        Ogr2Shape.create_ifcextrudedareasolid o (polys.get ⟨i, h1⟩)
          (0, 0, tr (0, 0, bottom) |>.2.2) Zvec (top - bottom) =
        .ok (sols.get ⟨i, h2⟩) := by
  have hgt := geom_type_multipolygon f polys hg
  have hgtm := geom_type_multipolygon_single f polys hg
  have hall : ∀ rings ∈ polys, ∃ s,
      Ogr2Shape.create_ifcextrudedareasolid o rings
        (0, 0, tr (0, 0, bottom) |>.2.2) Zvec (top - bottom) = .ok s := by
    intro rings hr
    cases rings with
    | nil => exact absurd rfl (hne [] hr)
    | cons outer inner => exact ⟨_, create_solid_fn o tr htr outer inner _ _ _⟩
  obtain ⟨sols, hsols⟩ := mapExcept_exists_ok hall
  obtain ⟨hlen, hidx⟩ := mapExcept_ok_spec hsols
  refine ⟨sols, ?_, hlen, hidx⟩
  unfold Ogr2Shape.body
  rw [hgt]
  have hmembers :
      Ogr2Shape.create_ifcextrudedareasolids o f (0, 0, tr (0, 0, bottom) |>.2.2) Zvec
        (top - bottom) = .ok sols := by
    unfold Ogr2Shape.create_ifcextrudedareasolids
    rw [hgtm]
    simp only [if_true, hg, Geometry.membersOf]
    exact hsols
  simp only [Bool.not_true, Bool.false_eq_true, if_false, hb, pyBind_ok, htr, applyCT,
    hmembers, pyMap_ok, pyPure]

/-- Witness for C2: the two-member MultiPolygon above. -/
theorem claim_C2_witness :
    ∃ sols : List ExtrudedAreaSolid,
      Ogr2Shape.body idTransformerOgr2Ifc twoPartFeature =
        .ok [{ identifier := "Body", repType := "SweptSolid", items := .solids sols }] ∧
      sols.length = 2 ∧
      ∀ i (h1 : i < (2 : Nat)) (h2 : i < sols.length),
        Ogr2Shape.create_ifcextrudedareasolid idTransformerOgr2Ifc
          (([[[(0, 0, 0), (1, 0, 0), (1, 1, 0), (0, 1, 0), (0, 0, 0)]],
             [[(5, 5, 0), (6, 5, 0), (6, 6, 0), (5, 6, 0), (5, 5, 0)]]] :
              List (List (List Point3))).get ⟨i, h1⟩)
          (0, 0, id ((0 : ℚ), (0 : ℚ), (0 : ℚ)) |>.2.2) Zvec (10000 - 0) =
        .ok (sols.get ⟨i, h2⟩) :=
  claim_C2_multipolygon_solids idTransformerOgr2Ifc id twoPartFeature
    [[[(0, 0, 0), (1, 0, 0), (1, 1, 0), (0, 1, 0), (0, 0, 0)]],
     [[(5, 5, 0), (6, 5, 0), (6, 6, 0), (5, 6, 0), (5, 5, 0)]]]
    10000 0 rfl rfl rfl (by intro rings hr; fin_cases hr <;> simp)

theorem geom_type_linestring (f : Feature) (pts : List Point3)
    (hg : f.geom = .lineString pts) :
    Ogr2Shape.geom_type f ["Linestring", "Multilinestring"] = true := by
  unfold Ogr2Shape.geom_type
  rw [hg]
  rfl

theorem geom_type_linestring_not_multi (f : Feature) (pts : List Point3)
    (hg : f.geom = .lineString pts) :
    Ogr2Shape.geom_type f ["Multilinestring"] = false := by
  unfold Ogr2Shape.geom_type
  rw [hg]
  rfl

/-- The segment loop pairs each vertex with its successor. -/
theorem quadLists_eq_zip (bottom top : ℚ) (pts : List Point3) :
    Ogr2Shape.quadLists bottom top pts =
      (pts.zip pts.tail).map fun pr => Ogr2Shape.segQuad pr.1 pr.2 bottom top := by
  induction pts with
  | nil => rfl
  | cons p rest ih =>
    cases rest with
    | nil => rfl
    | cons q rest2 => simp [Ogr2Shape.quadLists, ih]

theorem quadLists_length (bottom top : ℚ) (pts : List Point3) :
    (Ogr2Shape.quadLists bottom top pts).length = pts.length - 1 := by
  rw [quadLists_eq_zip]
  cases pts with
  | nil => rfl
  | cons p rest => simp [List.length_zip]

/-- C5: a LineString feature with n ≥ 2 vertices whose bounds resolve and
whose transformer slot holds a function produces exactly one Surface
representation with exactly n - 1 faces; the face of the consecutive pair
`(p0, p1)` is the closed quadrilateral `(p0,bottom), (p1,bottom), (p1,top),
(p0,top)` (closed by repeating the first corner), each corner transformed
and embedded at 3 dimensions. -/
theorem claim_C5_surface_faces (o : Ogr2Ifc) (tr : Point3 → Point3) (f : Feature)
    (pts : List Point3) (top bottom : ℚ)
    (htr : o.coord_transformer = .fn tr)
    (hg : f.geom = .lineString pts)
    (hn : 2 ≤ pts.length)
    (hb : Ogr2Shape.extrusion_bounds o f = .ok (top, bottom)) :
    ∃ fcs : List IfcFace,
      Ogr2Shape.surface o f =
        .ok [{ identifier := "Surface", repType := "Surface", items := .faces fcs }] ∧
      fcs.length = pts.length - 1 ∧
      fcs = (pts.zip pts.tail).map fun pr =>
        { loop := [ptList (tr (pr.1.1, pr.1.2.1, bottom)),
                   ptList (tr (pr.2.1, pr.2.2.1, bottom)),
                   ptList (tr (pr.2.1, pr.2.2.1, top)),
                   ptList (tr (pr.1.1, pr.1.2.1, top)),
                   ptList (tr (pr.1.1, pr.1.2.1, bottom))] } := by
  have hpt : ∀ p : Point3, Ogr2Shape.create_ifcpoint o p 3 = .ok (ptList (tr p)) := by
    intro p
    rw [create_ifcpoint_fn o tr htr p 3]
    exact rfl
  have hface : ∀ q : List Point3,
      Ogr2Shape.create_ifcface o q 3 = .ok { loop := q.map fun p => ptList (tr p) } := by
    intro q
    unfold Ogr2Shape.create_ifcface Ogr2Shape.create_ifcpoints
    rw [mapExcept_ok_of_fn hpt q]
    rfl
  have hfaces :
      Ogr2Shape.create_ifcfaces o (Ogr2Shape.quadLists bottom top pts) 3 =
        .ok ((Ogr2Shape.quadLists bottom top pts).map fun q =>
          { loop := q.map fun p => ptList (tr p) }) := by
    unfold Ogr2Shape.create_ifcfaces
    exact mapExcept_ok_of_fn hface _
  refine ⟨(Ogr2Shape.quadLists bottom top pts).map fun q =>
    { loop := q.map fun p => ptList (tr p) }, ?_, ?_, ?_⟩
  · unfold Ogr2Shape.surface
    rw [geom_type_linestring f pts hg]
    simp only [Bool.not_true, Bool.false_eq_true, if_false, hb, pyBind_ok,
      geom_type_linestring_not_multi f pts hg, hg, Geometry.linePoints, hfaces,
      pyMap_ok, pyPure]
  · simp [quadLists_length]
  · rw [quadLists_eq_zip]
    simp only [List.map_map]
    apply List.map_congr_left
    intro pr _
    simp [Ogr2Shape.segQuad, Function.comp]

/-- Witness for C5: the three-vertex line, identity transformer, default
numeric bounds. -/
theorem claim_C5_witness :
    2 ≤ ([((0 : ℚ), (0 : ℚ), (0 : ℚ)), (3, 4, 0), (6, 4, 0)] : List Point3).length ∧
    ∃ fcs : List IfcFace,
      Ogr2Shape.surface idTransformerOgr2Ifc threeVertexLine =
        .ok [{ identifier := "Surface", repType := "Surface", items := .faces fcs }] ∧
      fcs.length = ([((0 : ℚ), (0 : ℚ), (0 : ℚ)), (3, 4, 0), (6, 4, 0)] : List Point3).length - 1 ∧
      fcs = (([((0 : ℚ), (0 : ℚ), (0 : ℚ)), (3, 4, 0), (6, 4, 0)] : List Point3).zip
          ([((0 : ℚ), (0 : ℚ), (0 : ℚ)), (3, 4, 0), (6, 4, 0)] : List Point3).tail).map fun pr =>
        { loop := [ptList (id (pr.1.1, pr.1.2.1, (0 : ℚ))),
                   ptList (id (pr.2.1, pr.2.2.1, (0 : ℚ))),
                   ptList (id (pr.2.1, pr.2.2.1, (10000 : ℚ))),
                   ptList (id (pr.1.1, pr.1.2.1, (10000 : ℚ))),
                   ptList (id (pr.1.1, pr.1.2.1, (0 : ℚ)))] } :=
  ⟨by simp,
   claim_C5_surface_faces idTransformerOgr2Ifc id threeVertexLine
     [(0, 0, 0), (3, 4, 0), (6, 4, 0)] 10000 0 rfl rfl (by simp) rfl⟩

theorem pyThrow (e : PyError) : (throw e : Except PyError α) = Except.error e := rfl

/-- Any successful output of the Axis builder carries identifier "Axis". -/
theorem axis_identifiers (o : Ogr2Ifc) (f : Feature) (l : List ShapeRep)
    (h : Ogr2Shape.axis o f = .ok l) : ∀ r ∈ l, r.identifier = "Axis" := by
  unfold Ogr2Shape.axis at h
  split at h
  · cases h
    intro r hr
    cases hr
  · cases hb : Ogr2Shape.extrusion_bounds o f with
    | error e => rw [hb] at h; simp [pyBind_error] at h
    | ok tb =>
      rw [hb] at h
      simp only [pyBind_ok] at h
      split at h
      · simp [pyThrow] at h
      · cases hp : f.geom.getPoint with
        | error e => rw [hp] at h; simp [pyBind_error] at h
        | ok p =>
          rw [hp] at h
          simp only [pyBind_ok] at h
          cases hpl : Ogr2Shape.create_ifcpolyline o
              [(p.1, p.2.1, tb.2), (p.1, p.2.1, tb.1)] 3 with
          | error e => rw [hpl] at h; simp [pyBind_error, pyMap_error] at h
          | ok pl =>
            rw [hpl] at h
            simp only [pyBind_ok, pyMap_ok, pyPure, Except.ok.injEq] at h
            subst h
            intro r hr
            rw [List.mem_singleton] at hr
            subst hr
            rfl

/-- Any successful output of the Surface builder carries identifier
"Surface". -/
theorem surface_identifiers (o : Ogr2Ifc) (f : Feature) (l : List ShapeRep)
    (h : Ogr2Shape.surface o f = .ok l) : ∀ r ∈ l, r.identifier = "Surface" := by
  unfold Ogr2Shape.surface at h
  split at h
  · cases h
    intro r hr
    cases hr
  · cases hb : Ogr2Shape.extrusion_bounds o f with
    | error e => rw [hb] at h; simp [pyBind_error] at h
    | ok tb =>
      rw [hb] at h
      simp only [pyBind_ok] at h
      split at h
      · simp [pyThrow] at h
      · cases hfs : Ogr2Shape.create_ifcfaces o
            (Ogr2Shape.quadLists tb.2 tb.1 f.geom.linePoints) 3 with
        | error e => rw [hfs] at h; simp [pyBind_error, pyMap_error] at h
        | ok fcs =>
          rw [hfs] at h
          simp only [pyBind_ok, pyMap_ok, pyPure, Except.ok.injEq] at h
          subst h
          intro r hr
          rw [List.mem_singleton] at hr
          subst hr
          rfl

/-- Any successful output of the Body builder carries identifier "Body". -/
theorem body_identifiers (o : Ogr2Ifc) (f : Feature) (l : List ShapeRep)
    (h : Ogr2Shape.body o f = .ok l) : ∀ r ∈ l, r.identifier = "Body" := by
  unfold Ogr2Shape.body at h
  split at h
  · cases h
    intro r hr
    cases hr
  · cases hb : Ogr2Shape.extrusion_bounds o f with
    | error e => rw [hb] at h; simp [pyBind_error] at h
    | ok tb =>
      rw [hb] at h
      simp only [pyBind_ok] at h
      cases ht : applyCT o.coord_transformer (0, 0, tb.2) with
      | error e => rw [ht] at h; simp [pyBind_error] at h
      | ok transformed =>
        rw [ht] at h
        simp only [pyBind_ok] at h
        cases hs : Ogr2Shape.create_ifcextrudedareasolids o f
            (0, 0, transformed.2.2) Zvec (tb.1 - tb.2) with
        | error e => rw [hs] at h; simp [pyBind_error, pyMap_error] at h
        | ok sols =>
          rw [hs] at h
          simp only [pyBind_ok, pyMap_ok, pyPure, Except.ok.injEq] at h
          subst h
          intro r hr
          rw [List.mem_singleton] at hr
          subst hr
          rfl

/-- A successful `representations` output splits into its Axis, Surface and
Body parts, in that order (a set CoG, Box or FootPrint flag always raises,
so success forces those flags off). -/
theorem representations_ok_parts (o : Ogr2Ifc) (f : Feature) (l : List ShapeRep)
    (h : Ogr2Shape.representations o f = .ok l) :
    ∃ s3 s5 s6, l = s3 ++ s5 ++ s6 ∧
      (∀ r ∈ s3, r.identifier = "Axis") ∧
      (∀ r ∈ s5, r.identifier = "Surface") ∧
      (∀ r ∈ s6, r.identifier = "Body") := by
  unfold Ogr2Shape.representations at h
  cases hCoG : o.CoG with
  | true => rw [hCoG] at h; simp [Ogr2Shape.cog, pyBind_error] at h
  | false =>
    rw [hCoG] at h
    simp only [if_false, Bool.false_eq_true, pyBind_ok] at h
    cases hBox : o.Box with
    | true => rw [hBox] at h; simp [Ogr2Shape.box, pyBind_error] at h
    | false =>
      rw [hBox] at h
      simp only [if_false, Bool.false_eq_true, pyBind_ok] at h
      cases hax : (if o.Axis then Ogr2Shape.axis o f else Except.ok []) with
      | error e => rw [hax] at h; simp [pyBind_error] at h
      | ok s3 =>
        rw [hax] at h
        simp only [pyBind_ok] at h
        cases hFP : o.FootPrint with
        | true => rw [hFP] at h; simp [Ogr2Shape.footprint, pyBind_error] at h
        | false =>
          rw [hFP] at h
          simp only [if_false, Bool.false_eq_true, pyPure, pyBind_ok] at h
          cases hsu : (if o.Surface then Ogr2Shape.surface o f else Except.ok []) with
          | error e => rw [hsu] at h; simp [pyBind_error] at h
          | ok s5 =>
            rw [hsu] at h
            simp only [pyBind_ok] at h
            cases hbo : (if o.Body then Ogr2Shape.body o f else Except.ok []) with
            | error e => rw [hbo] at h; simp [pyBind_error, pyMap_error] at h
            | ok s6 =>
              rw [hbo] at h
              simp only [pyBind_ok, pyMap_ok, pyPure, Except.ok.injEq] at h
              refine ⟨s3, s5, s6, ?_, ?_, ?_, ?_⟩
              · rw [← h]; simp
              · intro r hr
                by_cases hA : o.Axis
                · rw [if_pos hA] at hax
                  exact axis_identifiers o f s3 hax r hr
                · rw [if_neg hA] at hax
                  cases hax
                  cases hr
              · intro r hr
                by_cases hS : o.Surface
                · rw [if_pos hS] at hsu
                  exact surface_identifiers o f s5 hsu r hr
                · rw [if_neg hS] at hsu
                  cases hsu
                  cases hr
              · intro r hr
                by_cases hB : o.Body
                · rw [if_pos hB] at hbo
                  exact body_identifiers o f s6 hbo r hr
                · rw [if_neg hB] at hbo
                  cases hbo
                  cases hr

/-- A Point feature used by closed evaluation theorems. -/
def pointFeature : Feature :=
  { fid := 5, geom := .point (1, 2, 0), attributes := [] }

/-- A single-vertex LineString feature (its Surface representation has no
faces, so it succeeds even under the broken default transformer slot). -/
def singlePointLine : Feature :=
  { fid := 6, geom := .lineString [(7, 8, 0)], attributes := [] }

/-- Counterexample to C6 as stated: the default flags do *not* disable
Axis — `__init__` hard-codes `self.Axis = True`. -/
theorem claim_C6_counterexample : defaultOgr2Ifc.Axis = true := rfl

/-- C6 (amended): the default flags are Surface, Body *and Axis* enabled,
with CoG, Box and FootPrint disabled; hence a successful default conversion
only ever contains Axis, Surface and Body representations — no CoG, Box or
FootPrint representation is produced. -/
theorem claim_C6_amended_default_flags :
    defaultOgr2Ifc.CoG = false ∧ defaultOgr2Ifc.Box = false ∧
    defaultOgr2Ifc.FootPrint = false ∧ defaultOgr2Ifc.Axis = true ∧
    defaultOgr2Ifc.Surface = true ∧ defaultOgr2Ifc.Body = true ∧
    ∀ (f : Feature) (l : List ShapeRep),
      Ogr2Shape.representations defaultOgr2Ifc f = .ok l →
      ∀ r ∈ l, r.identifier = "Axis" ∨ r.identifier = "Surface" ∨ r.identifier = "Body" := by
  refine ⟨rfl, rfl, rfl, rfl, rfl, rfl, ?_⟩
  intro f l h r hr
  obtain ⟨s3, s5, s6, rfl, h3, h5, h6⟩ :=
    representations_ok_parts defaultOgr2Ifc f l h
  rcases List.mem_append.mp hr with hr' | hr'
  · rcases List.mem_append.mp hr' with hr'' | hr''
    · exact Or.inl (h3 r hr'')
    · exact Or.inr (Or.inl (h5 r hr''))
  · exact Or.inr (Or.inr (h6 r hr'))

/-- Witness for the amended C6: a default-constructed `Ogr2Ifc` converts
the single-vertex line to one (empty) Surface representation, whose
identifier is indeed among Axis/Surface/Body. -/
theorem claim_C6_amended_witness :
    ({ identifier := "Surface", repType := "Surface", items := .faces [] } :
        ShapeRep).identifier = "Axis" ∨
    ({ identifier := "Surface", repType := "Surface", items := .faces [] } :
        ShapeRep).identifier = "Surface" ∨
    ({ identifier := "Surface", repType := "Surface", items := .faces [] } :
        ShapeRep).identifier = "Body" :=
  claim_C6_amended_default_flags.2.2.2.2.2.2 singlePointLine
    [{ identifier := "Surface", repType := "Surface", items := .faces [] }] rfl
    { identifier := "Surface", repType := "Surface", items := .faces [] }
    (List.mem_singleton.mpr rfl)

/-- The position of a representation identifier in the fixed builder order
CoG, Box, Axis, FootPrint, Surface, Body. -/
def repOrder (r : ShapeRep) : Nat :=
  if r.identifier = "CenterOfGravity" then 0
  else if r.identifier = "Box" then 1
  else if r.identifier = "Axis" then 2
  else if r.identifier = "FootPrint" then 3
  else if r.identifier = "Surface" then 4
  else 5

theorem sorted_le_of_all_eq {c : Nat} {xs : List Nat} (h : ∀ x ∈ xs, x = c) :
    xs.Sorted (· ≤ ·) := by
  induction xs with
  | nil => exact List.sorted_nil
  | cons x t ih =>
    rw [List.sorted_cons]
    refine ⟨?_, ih fun y hy => h y (List.mem_cons_of_mem x hy)⟩
    intro y hy
    rw [h x (List.mem_cons_self x t), h y (List.mem_cons_of_mem x hy)]

/-- C10: whatever the flags and geometry, a successful `representations`
call returns its list ordered by the fixed builder order CoG, Box, Axis,
FootPrint, Surface, Body. -/
theorem claim_C10_representation_order (o : Ogr2Ifc) (f : Feature) (l : List ShapeRep)
    (h : Ogr2Shape.representations o f = .ok l) :
    (l.map repOrder).Sorted (· ≤ ·) := by
  obtain ⟨s3, s5, s6, rfl, h3, h5, h6⟩ := representations_ok_parts o f l h
  have o3 : ∀ x ∈ s3.map repOrder, x = 2 := by
    intro x hx
    obtain ⟨r, hr, rfl⟩ := List.mem_map.mp hx
    simp [repOrder, h3 r hr]
  have o5 : ∀ x ∈ s5.map repOrder, x = 4 := by
    intro x hx
    obtain ⟨r, hr, rfl⟩ := List.mem_map.mp hx
    simp [repOrder, h5 r hr]
  have o6 : ∀ x ∈ s6.map repOrder, x = 5 := by
    intro x hx
    obtain ⟨r, hr, rfl⟩ := List.mem_map.mp hx
    simp [repOrder, h6 r hr]
  rw [List.map_append, List.map_append]
  unfold List.Sorted
  rw [List.pairwise_append, List.pairwise_append]
  refine ⟨⟨sorted_le_of_all_eq o3, sorted_le_of_all_eq o5, ?_⟩,
    sorted_le_of_all_eq o6, ?_⟩
  · intro a ha b hb
    rw [o3 a ha, o5 b hb]
    norm_num
  · intro a ha b hb
    rcases List.mem_append.mp ha with ha1 | ha1
    · rw [o3 a ha1, o6 b hb]; norm_num
    · rw [o5 a ha1, o6 b hb]; norm_num

/-- Witness for C10: the single-vertex line under the supplied identity
transformer yields one Surface representation; its order list is sorted. -/
theorem claim_C10_witness :
    (([{ identifier := "Surface", repType := "Surface", items := .faces [] }] :
        List ShapeRep).map repOrder).Sorted (· ≤ ·) :=
  claim_C10_representation_order idTransformerOgr2Ifc singlePointLine
    [{ identifier := "Surface", repType := "Surface", items := .faces [] }] rfl

/-- shapely `translate(geom, xoff, yoff, zoff)`. -/
def shapelyTranslate (xoff yoff zoff : ℝ) (p : ℝ × ℝ × ℝ) : ℝ × ℝ × ℝ :=
  (p.1 + xoff, p.2.1 + yoff, p.2.2 + zoff)

/-- shapely `rotate(geom, angle, origin=(0, 0))`: counter-clockwise
rotation of x and y about the origin by an angle in degrees; z is kept. -/
noncomputable def shapelyRotate (angleDeg : ℝ) (p : ℝ × ℝ × ℝ) : ℝ × ℝ × ℝ :=
  let t := angleDeg * Real.pi / 180
  (Real.cos t * p.1 - Real.sin t * p.2.1,
   Real.sin t * p.1 + Real.cos t * p.2.1, p.2.2)

/-- The function the module-level factory `transformer(eastings, northings,
orthogonal_height, rotation)` *returns when called*: translate by the
negated offsets, then rotate about the origin. -/
noncomputable def transformerFn (eastings northings orthogonal_height rotation : ℝ)
    (p : ℝ × ℝ × ℝ) : ℝ × ℝ × ℝ :=
  shapelyRotate rotation
    (shapelyTranslate (-eastings) (-northings) (-orthogonal_height) p)

/-- The factory's all-default parameters produce the identity transform —
the behaviour the spec ascribes to the default configuration. -/
theorem transformer_allzero_identity (p : ℝ × ℝ × ℝ) : transformerFn 0 0 0 0 p = p := by
  simp [transformerFn, shapelyRotate, shapelyTranslate]

/-- C3 (failing evaluation): under the all-default configuration the
transformer slot holds the bare factory, so embedding any coordinate —
here `(1, 2, 3)` at 2 dimensions — raises AttributeError instead of
passing the point through unchanged; no coordinate is ever emitted. -/
theorem claim_C3_default_transform_breaks :
    Ogr2Shape.create_ifcpoint defaultOgr2Ifc (1, 2, 3) 2 =
      .error (.attributeError "coords") ∧
    Ogr2Shape.body defaultOgr2Ifc squareFeature =
      .error (.attributeError "coords") := ⟨rfl, rfl⟩

/-- An `Ogr2Ifc` whose bottom elevation is the attribute name "ELEV". -/
def attrBottomOgr2Ifc : Ogr2Ifc := mkOgr2Ifc none (some (.attr "ELEV")) none

/-- A feature carrying `ELEV = 12.5`. -/
def featureWithElev : Feature :=
  { fid := 8
    geom := .polygon [[(0, 0, 0), (1, 0, 0), (1, 1, 0), (0, 1, 0), (0, 0, 0)]]
    attributes := [("ELEV", .realV 12.5)] }

/-- A feature without any `ELEV` attribute. -/
def featureWithoutElev : Feature :=
  { fid := 9
    geom := .polygon [[(0, 0, 0), (1, 0, 0), (1, 1, 0), (0, 1, 0), (0, 0, 0)]]
    attributes := [("NAME", .textV "a")] }

/-- C4 (failing evaluation): with bottom spec "ELEV", a feature carrying
`ELEV = 12.5` resolves to bottom 12.5 (the dataset bounds are not even
consulted), but a feature *without* the attribute raises AttributeError —
the fallback reads `self.ogr2ifc.min_elevation`, which this class never
sets — instead of falling back to the dataset minimum. -/
theorem claim_C4_fallback_breaks :
    Ogr2Shape.extrusion_bounds attrBottomOgr2Ifc featureWithElev = .ok (10000, 12.5) ∧
    Ogr2Shape.extrusion_bounds attrBottomOgr2Ifc featureWithoutElev =
      .error (.attributeError "min_elevation") := ⟨rfl, rfl⟩

/-- Counterexample to C7 as stated: a LineString routed to the Body builder
does *not* fail with an unsupported-geometry error — it is skipped,
returning no representation at all. -/
theorem claim_C7_counterexample :
    Ogr2Shape.body defaultOgr2Ifc threeVertexLine = .ok [] ∧
    (Ogr2Shape.body defaultOgr2Ifc threeVertexLine).isOk = true := ⟨rfl, rfl⟩

/-- C7 (amended): a feature whose geometry kind the Body builder does not
support is skipped — the builder returns no representation and raises no
error, so the feature's Element is simply created without a Body
representation (the legacy `Ogr2Ifc.body_representation` variant raised a
"Geom type not supported yet" error instead). -/
theorem claim_C7_amended_body_skips (o : Ogr2Ifc) (f : Feature)
    (h : Ogr2Shape.geom_type f ["Polygon", "Multipolygon"] = false) :
    Ogr2Shape.body o f = .ok [] := by
  unfold Ogr2Shape.body
  rw [h]
  rfl

/-- Witness for the amended C7: the Point feature is skipped by the Body
builder. -/
theorem claim_C7_amended_witness :
    Ogr2Shape.body idTransformerOgr2Ifc pointFeature = .ok [] :=
  claim_C7_amended_body_skips idTransformerOgr2Ifc pointFeature rfl

/-- C8 (failing evaluation): a Polygon feature gets its one Area quantity,
but a LineString feature gets *no* quantity at all — the code compares
`GetGeometryName()` (which is "LINESTRING") against 'LINE' / 'MULTILINE',
names GDAL never produces — and a Point feature gets none either (without
error). -/
theorem claim_C8_line_quantity_missing :
    Ogr2Ifc.feature_quantities squareFeature =
      some [{ name := "Area", description := "Area of the GIS feature",
              value := .areaOf squareFeature.geom }] ∧
    Ogr2Ifc.feature_quantities threeVertexLine = none ∧
    Ogr2Ifc.feature_quantities pointFeature = none := ⟨rfl, rfl, rfl⟩

/-- Is the referenced document entity a wall element? -/
def isWallAt (doc : List Entity) (i : Nat) : Bool :=
  match doc.get? i with
  | some (.wall ..) => true
  | _ => false

/-- Is the referenced document entity an `IfcSpace`? -/
def isSpaceAt (doc : List Entity) (i : Nat) : Bool :=
  match doc.get? i with
  | some (.spaceEnt ..) => true
  | _ => false

/-- Is the referenced document entity an `IfcBuildingStorey`? -/
def isStoreyAt (doc : List Entity) (i : Nat) : Bool :=
  match doc.get? i with
  | some (.buildingStoreyEnt ..) => true
  | _ => false

/-- Does some aggregation relation relate a wall element under an
`IfcSpace`? -/
def someWallAggregatedToSpace (doc : List Entity) : Bool :=
  doc.any fun e =>
    match e with
    | .relAggregates _ relating related =>
      isSpaceAt doc relating && related.any (isWallAt doc)
    | _ => false

/-- Does some containment relation place a wall element in an
`IfcBuildingStorey`? -/
def someWallContainedInStorey (doc : List Entity) : Bool :=
  doc.any fun e =>
    match e with
    | .relContained _ related relating =>
      isStoreyAt doc relating && related.any (isWallAt doc)
    | _ => false

/-- Number of wall elements in the document. -/
def countWalls (doc : List Entity) : Nat :=
  doc.countP fun e => match e with | .wall .. => true | _ => false

/-- Number of `IfcSpace` entities in the document. -/
def countSpaces (doc : List Entity) : Nat :=
  doc.countP fun e => match e with | .spaceEnt .. => true | _ => false

/-- One full layer conversion: layer "layer1" with the square feature,
identity transformer supplied, default flags and elevations. -/
def layerRun : Except PyError Unit × DocState :=
  Ogr2IfcRun.add_layer_objects idTransformerOgr2Ifc "layer1" [squareFeature] initState

/-- C9 (failing evaluation): converting one layer with one polygon feature
succeeds and creates exactly one Element and exactly one `IfcSpace`, and the
Element *is* contained in the layer's storey — but *no* aggregation
relation relates it (or anything else) to the `IfcSpace`: the code rebinds
`space` to `create_storey`'s return value (the "Building Container"
aggregation relation), so the "Feature space" aggregation points at a
relation entity and the Space is left orphaned. -/
theorem claim_C9_space_aggregation_missing :
    layerRun.1 = .ok () ∧
    countWalls layerRun.2.doc = 1 ∧
    countSpaces layerRun.2.doc = 1 ∧
    someWallContainedInStorey layerRun.2.doc = true ∧
    someWallAggregatedToSpace layerRun.2.doc = false :=
  ⟨rfl, rfl, rfl, rfl, rfl⟩
